import Mathlib

/-!
Verification of the Proxmox backup orchestrator (src/orchestrator.py).

The embedding below translates the data model and the operations of the
source into Lean: Python dictionaries with optional keys become structures
of Option fields, dictionary subscripting becomes an Except computation
that raises a KeyError value when the key is absent, the subprocess call
becomes a function of an abstract process behavior supplied by the
environment, and wall-clock time becomes a monotone Nat counter.
-/

namespace Orchestrator

/-- Decidable equality for Except values, so that concrete runs of the
embedded functions can be checked by evaluation. -/
instance {ε α : Type} [DecidableEq ε] [DecidableEq α] : DecidableEq (Except ε α) := fun a b =>
  match a, b with
  | .error e, .error f =>
    if h : e = f then .isTrue (by rw [h]) else .isFalse (by intro hc; cases hc; exact h rfl)
  | .ok x, .ok y =>
    if h : x = y then .isTrue (by rw [h]) else .isFalse (by intro hc; cases hc; exact h rfl)
  | .error _, .ok _ => .isFalse (by intro hc; cases hc)
  | .ok _, .error _ => .isFalse (by intro hc; cases hc)

/-- Python exceptions that can escape the embedded functions. -/
inductive PyErr
  | keyError (key : String)
deriving DecidableEq

/-- Per-node configuration entry, a YAML mapping. A field holding none
models an absent key. Values already carry the string form that the
Python str conversion would produce; exclusion entries are VM ids. -/
structure NodeConfig where
  fqdn : Option String := none
  shortname : Option String := none
  exclude_vms : Option (List Nat) := none
deriving DecidableEq

/-- Global configuration document loaded from config.yaml. -/
structure Config where
  mailto : Option String := none
  fleecing : Option String := none
  bwlimit : Option String := none
  pbs_storage : Option String := none
  notes_template : Option String := none
  mailnotification : Option String := none
  exclude_vms : Option (List Nat) := none
  nodes : Option (List NodeConfig) := none
  schedule : Option String := none
deriving DecidableEq

/-- Lines 38 to 54 of run_vzdump: the fixed part of the ssh command.
Each subscript of node_config or config is evaluated in source order and
raises KeyError when the key is absent. -/
def baseSshCommand (node_config : NodeConfig) (config : Config) :
    Except PyErr (List String) :=
  match node_config.fqdn with
  | none => .error (.keyError "fqdn")
  | some fqdn =>
  match config.mailto with
  | none => .error (.keyError "mailto")
  | some mailto =>
  match config.fleecing with
  | none => .error (.keyError "fleecing")
  | some fleecing =>
  match config.bwlimit with
  | none => .error (.keyError "bwlimit")
  | some bwlimit =>
  match config.pbs_storage with
  | none => .error (.keyError "pbs_storage")
  | some pbs_storage =>
  match config.notes_template with
  | none => .error (.keyError "notes_template")
  | some notes_template =>
  match config.mailnotification with
  | none => .error (.keyError "mailnotification")
  | some mailnotification =>
  match node_config.shortname with
  | none => .error (.keyError "shortname")
  | some shortname =>
    .ok ["/usr/bin/ssh", "-p", "22",
         "-o", "StrictHostKeyChecking=no",
         "-o", "UserKnownHostsFile=/dev/null",
         "root@" ++ fqdn,
         "vzdump", "--mode", "snapshot",
         "--mailto", mailto,
         "--fleecing", fleecing,
         "--bwlimit", bwlimit,
         "--storage", pbs_storage,
         "--notes-template", notes_template,
         "--mailnotification", mailnotification,
         "--node", shortname,
         "--all", "1"]

/-- Lines 56 to 62: exclusion list resolution. Key presence on the node
mapping wins even when its value is the empty list. -/
def effectiveExclude (node_config : NodeConfig) (config : Config) : List Nat :=
  match node_config.exclude_vms with
  | some l => l
  | none =>
    match config.exclude_vms with
    | some l => l
    | none => []

/-- Python comma join of a list of strings. -/
def joinComma : List String → String
  | [] => ""
  | [x] => x
  | x :: y :: rest => x ++ "," ++ joinComma (y :: rest)

/-- Lines 64 to 66: the exclude argument pair, appended only when the
effective exclusion list is non-empty. -/
def excludeArgs (node_config : NodeConfig) (config : Config) : List String :=
  let exclude_list := effectiveExclude node_config config
  if exclude_list = [] then []
  else ["--exclude", joinComma (exclude_list.map Nat.repr)]

/-- Lines 38 to 66: the full ssh command as issued by run_vzdump. -/
def buildSshCommand (node_config : NodeConfig) (config : Config) :
    Except PyErr (List String) :=
  match baseSshCommand node_config config with
  | .error e => .error e
  | .ok base => .ok (base ++ excludeArgs node_config config)

/-- True when every key subscripted while building the ssh command is
present, so the command build cannot raise KeyError. -/
def requiredKeysPresent (node_config : NodeConfig) (config : Config) : Bool :=
  node_config.fqdn.isSome && config.mailto.isSome && config.fleecing.isSome &&
  config.bwlimit.isSome && config.pbs_storage.isSome &&
  config.notes_template.isSome && config.mailnotification.isSome &&
  node_config.shortname.isSome

/-- Line 72: the timeout, in seconds, passed to subprocess.run. -/
def vzdumpTimeout : Nat := 1200

/-- One possible behavior of the spawned ssh process, supplied by the
environment: it completes after some duration with an exit code and
captured output, or it never completes, or the local ssh binary is
missing, or some other fault occurs. -/
inductive ProcSpec
  | runs (duration : Nat) (rc : Int) (stdout stderr : String)
  | hangs
  | toolMissing
  | faults (msg : String)
deriving DecidableEq

/-- Classified per-node result; the source logs the class and returns a
boolean, true only on success. -/
inductive BackupOutcome
  | success (stdout : String)
  | failureExit (rc : Int) (stdout stderr : String)
  | transportUnavailable
  | timeout
  | unexpected (msg : String)
deriving DecidableEq

/-- The boolean actually returned by run_vzdump for each outcome. -/
def BackupOutcome.isSuccess : BackupOutcome → Bool
  | .success _ => true
  | _ => false

/-- Lines 71 to 89: subprocess.run with check true and the fixed timeout,
classified by the except clauses. A process that would complete within
the timeout yields its exit status; exit code zero is success and any
other exit code is a failure carrying code and output; a longer run hits
TimeoutExpired; a missing ssh binary hits FileNotFoundError; anything
else hits the generic except clause. -/
def classifyRun (p : ProcSpec) : BackupOutcome :=
  match p with
  | .runs d rc out err =>
    if d ≤ vzdumpTimeout then
      if rc = 0 then .success out else .failureExit rc out err
    else .timeout
  | .hangs => .timeout
  | .toolMissing => .transportUnavailable
  | .faults m => .unexpected m

/-- Lines 35 to 89: run_vzdump. The command build precedes the try block,
so a KeyError from it escapes uncaught; once the command is built, every
process behavior is classified and returned as an outcome. -/
def run_vzdump (node_config : NodeConfig) (config : Config) (p : ProcSpec) :
    Except PyErr BackupOutcome :=
  match buildSshCommand node_config config with
  | .error e => .error e
  | .ok _ssh_command => .ok (classifyRun p)

/-- Wall-clock seconds consumed by one invocation under a given process
behavior; a run is cut off at the timeout. -/
def procElapsed (p : ProcSpec) : Nat :=
  match p with
  | .runs d _ _ _ => min d vzdumpTimeout
  | .hangs => vzdumpTimeout
  | .toolMissing => 0
  | .faults _ => 0

/-- Accumulated observable result of the per-node loop of backup_job. -/
structure NodesResult where
  invoked : List NodeConfig
  warnings : List String
  endT : Nat
  err : Option PyErr
deriving DecidableEq

/-- Lines 96 to 98: the loop over config nodes. The environment env gives
the process behavior of the i-th invocation. A false return logs a
warning naming the node (with the Python dict get default of N/A) and the
loop continues; an escaping exception aborts the loop at that node. -/
def runNodes (config : Config) (env : Nat → ProcSpec) :
    List NodeConfig → Nat → Nat → NodesResult
  | [], _, t => ⟨[], [], t, none⟩
  | n :: rest, i, t =>
    match run_vzdump n config (env i) with
    | .error e => ⟨[n], [], t, some e⟩
    | .ok o =>
      let r := runNodes config env rest (i + 1) (t + procElapsed (env i))
      ⟨n :: r.invoked,
       (if o.isSuccess then r.warnings else (n.shortname.getD "N/A") :: r.warnings),
       r.endT, r.err⟩

/-- Observable trace of one call to backup_job: the nodes passed to
run_vzdump in order, the warnings logged, the recorded start and end
times, whether the completion line was logged, and the exception, if any,
escaping backup_job. -/
structure CycleTrace where
  invocations : List NodeConfig
  warnings : List String
  startTime : Nat
  endTime : Nat
  completedLogged : Bool
  err : Option PyErr
deriving DecidableEq

/-- Lines 91 to 102: backup_job. It records the start time, subscripts
config nodes (KeyError when absent), runs the nodes sequentially, and on
normal completion records the end time and logs the completion line. -/
def backup_job (config : Config) (env : Nat → ProcSpec) (t0 : Nat) : CycleTrace :=
  match config.nodes with
  | none => ⟨[], [], t0, t0, false, some (.keyError "nodes")⟩
  | some ns =>
    let r := runNodes config env ns 0 t0
    ⟨r.invoked, r.warnings, t0, r.endT, r.err.isNone, r.err⟩

/-- Whitespace tokenizer used by the Python str.split with no argument:
runs of whitespace separate tokens, leading and trailing whitespace is
dropped, and no empty token is produced. -/
def splitWsAux : List Char → List Char → List String
  | [], acc => if acc = [] then [] else [String.mk acc.reverse]
  | ch :: rest, acc =>
    if ch.isWhitespace then
      if acc = [] then splitWsAux rest []
      else String.mk acc.reverse :: splitWsAux rest []
    else splitWsAux rest (ch :: acc)

/-- Line 114: parts equals the schedule string split on whitespace. -/
def pySplit (s : String) : List String := splitWsAux s.data []

/-- Python int conversion restricted to the digit strings that reach it
here: all-digit non-empty strings convert, everything else fails. -/
def pyToNat (s : String) : Option Nat :=
  if s.data ≠ [] ∧ s.data.all Char.isDigit then
    some (s.data.foldl (fun n c => n * 10 + (c.toNat - 48)) 0)
  else none

/-- Errors of schedule parsing and registration. -/
inductive ParseError
  | malformedSchedule
  | invalidTimeValue (field : String)
deriving DecidableEq

/-- The recurrence rule registered with the scheduling engine. -/
inductive RecurrenceRule
  | everyMinute
  | hourlyAtMinute (m : Nat)
  | dailyAt (h m : Nat)
deriving DecidableEq

/-- Modelled from the spec: the time validation done by the external
scheduling library (not part of this repository) when registering an
hourly job at a given minute, called at line 127. Per the spec, a literal
minute must be convertible to an integer in the range 0 to 59; otherwise
registration fails with InvalidTimeValue. -/
def atHourly (minute : String) : Except ParseError Nat :=
  match pyToNat minute with
  | some m => if m ≤ 59 then .ok m else .error (.invalidTimeValue minute)
  | none => .error (.invalidTimeValue minute)

/-- Modelled from the spec: the time validation done by the external
scheduling library (not part of this repository) when registering a daily
job at a given hour and minute, called at line 132. Per the spec, the
literal hour must convert to an integer in 0 to 23 and the literal minute
to an integer in 0 to 59; otherwise registration fails with
InvalidTimeValue. -/
def atDaily (hour minute : String) : Except ParseError (Nat × Nat) :=
  match pyToNat hour, pyToNat minute with
  | some h, some m =>
    if h ≤ 23 then
      if m ≤ 59 then .ok (h, m) else .error (.invalidTimeValue minute)
    else .error (.invalidTimeValue hour)
  | none, _ => .error (.invalidTimeValue hour)
  | some _, none => .error (.invalidTimeValue minute)

/-- Lines 115 to 133: field-count check, destructuring, and branch
selection on the minute and hour fields. -/
def parseParts : List String → Except ParseError RecurrenceRule
  | [minute, hour, _day_of_month, _month, _day_of_week] =>
    if hour = "*" ∧ minute = "*" then .ok .everyMinute
    else if hour = "*" then
      match atHourly minute with
      | .ok m => .ok (.hourlyAtMinute m)
      | .error e => .error e
    else
      match atDaily hour minute with
      | .ok hm => .ok (.dailyAt hm.1 hm.2)
      | .error e => .error e
  | _ => .error .malformedSchedule

/-- Lines 114 to 133: the schedule descriptor parser. -/
def parseSchedule (s : String) : Except ParseError RecurrenceRule :=
  parseParts (pySplit s)

/-- Outcome of the load_config call: the file interaction is external, so
its result is an input. -/
inductive LoadResult
  | fileNotFound
  | yamlError (msg : String)
  | otherError (msg : String)
  | loaded (config : Config)
deriving DecidableEq

/-- Reasons the process terminates with a non-zero exit before entering
the polling loop. -/
inductive FatalReason
  | configFileNotFound
  | configYamlError
  | configOtherError
  | scheduleKeyMissing
  | scheduleMalformed
  | scheduleInvalidTime (field : String)
deriving DecidableEq

/-- What startup produces: a fatal non-zero exit before the loop, or
entry into the polling loop with one registered recurrence rule. -/
inductive StartupOutcome
  | fatal (reason : FatalReason)
  | enteredLoop (rule : RecurrenceRule)
deriving DecidableEq

/-- Lines 20 to 33: load_config logs and exits non-zero on a missing
file, a YAML parse error, or any other loading fault. -/
def load_config : LoadResult → Except FatalReason Config
  | .fileNotFound => .error .configFileNotFound
  | .yamlError _ => .error .configYamlError
  | .otherError _ => .error .configOtherError
  | .loaded c => .ok c

/-- Lines 104 to 141: the startup phase of main, from loading the
configuration to registering the recurrence rule. Subscripting the
schedule key raises KeyError when absent, which no handler catches, so
the process dies before the loop; a malformed schedule raises ValueError,
caught at line 135 with exit code 1; an invalid time value makes the
registration call fail, again fatally before the loop. -/
def mainStartup (lr : LoadResult) : StartupOutcome :=
  match load_config lr with
  | .error r => .fatal r
  | .ok config =>
    match config.schedule with
    | none => .fatal .scheduleKeyMissing
    | some s =>
      match parseSchedule s with
      | .error .malformedSchedule => .fatal .scheduleMalformed
      | .error (.invalidTimeValue f) => .fatal (.scheduleInvalidTime f)
      | .ok rule => .enteredLoop rule

/-- What one iteration of the polling loop encounters: a normal poll, a
fault raised inside the iteration, or a keyboard interrupt. -/
inductive IterEvent
  | ok
  | fault (msg : String)
  | interrupt
deriving DecidableEq

/-- Effect of one iteration: continue (recording whether a fault was
logged) or stop (recording whether shutdown was logged). -/
inductive StepResult
  | continueLoop (faultLogged : Bool)
  | stopLoop (shutdownLogged : Bool)
deriving DecidableEq

/-- Lines 143 to 155: one iteration of the while loop. A normal iteration
continues; an exception is caught at line 154, logged, and the loop
continues; a KeyboardInterrupt logs shutdown and breaks. -/
def loopStep : IterEvent → StepResult
  | .ok => .continueLoop false
  | .fault _ => .continueLoop true
  | .interrupt => .stopLoop true

/-- Aggregate observation of the loop run over a finite prefix of
iteration events. -/
structure LoopState where
  iterations : Nat
  faultsLogged : Nat
  stopped : Bool
  shutdownLogged : Bool
deriving DecidableEq

/-- The while loop of lines 143 to 155 driven by a finite prefix of
iteration events; it stops at the first interrupt and otherwise keeps
iterating. -/
def runLoop : List IterEvent → LoopState
  | [] => ⟨0, 0, false, false⟩
  | e :: rest =>
    match loopStep e with
    | .stopLoop sd => ⟨1, 0, true, sd⟩
    | .continueLoop fl =>
      let r := runLoop rest
      ⟨r.iterations + 1, r.faultsLogged + (if fl then 1 else 0),
       r.stopped, r.shutdownLogged⟩

/-- The iteration event produced by one scheduled run of backup_job: an
escaping exception becomes a fault event caught by the loop. -/
def iterOfCycle (tr : CycleTrace) : IterEvent :=
  match tr.err with
  | some (.keyError k) => .fault ("KeyError: " ++ k)
  | none => .ok

/-! Concrete sample data used to instantiate the theorems below. -/

/-- Sample node with every key present and a node-level exclusion list. -/
def nodeSample : NodeConfig where
  fqdn := some "pve1.example.com"
  shortname := some "pve1"
  exclude_vms := some [100, 101]

/-- Sample node with the required keys and no exclusion list. -/
def nodeB : NodeConfig where
  fqdn := some "pve2.example.com"
  shortname := some "pve2"

/-- Third sample node with the required keys and no exclusion list. -/
def nodeC : NodeConfig where
  fqdn := some "pve3.example.com"
  shortname := some "pve3"

/-- Sample node lacking the fqdn key. -/
def nodeNoFqdn : NodeConfig where
  shortname := some "pve9"

/-- Sample node lacking the shortname key. -/
def nodeNoShort : NodeConfig where
  fqdn := some "pve9.example.com"

/-- Fully populated global configuration with three nodes. -/
def cfgFull : Config where
  mailto := some "ops"
  fleecing := some "0"
  bwlimit := some "50000"
  pbs_storage := some "pbs"
  notes_template := some "guestname"
  mailnotification := some "failure"
  exclude_vms := some [7]
  nodes := some [nodeSample, nodeB, nodeC]
  schedule := some "30 2 * * *"

/-- Global configuration identical to cfgFull except that the mailto key
is absent. -/
def cfgMissingMailto : Config where
  fleecing := some "0"
  bwlimit := some "50000"
  pbs_storage := some "pbs"
  notes_template := some "guestname"
  mailnotification := some "failure"
  exclude_vms := some [7]
  nodes := some [nodeSample, nodeB, nodeC]
  schedule := some "30 2 * * *"

/-- Fully populated global configuration whose second node lacks the
shortname key. -/
def cfgBadNode : Config where
  mailto := some "ops"
  fleecing := some "0"
  bwlimit := some "50000"
  pbs_storage := some "pbs"
  notes_template := some "guestname"
  mailnotification := some "failure"
  nodes := some [nodeB, nodeNoShort, nodeC]
  schedule := some "30 2 * * *"

/-- Global configuration lacking the schedule key. -/
def cfgNoSchedule : Config where
  nodes := some [nodeB]

/-- Sample environment: the second invocation exits non-zero, every other
invocation succeeds after three seconds. -/
def env3 : Nat → ProcSpec := fun i =>
  if i = 1 then .runs 3 1 "bad" "err" else .runs 3 0 "ok" ""

/-! Helper lemmas about the embedded operations. -/

theorem baseSshCommand_ok_of_keys (n : NodeConfig) (c : Config)
    (h : requiredKeysPresent n c = true) :
    ∃ cmd, baseSshCommand n c = Except.ok cmd := by
  simp only [requiredKeysPresent, Bool.and_eq_true, Option.isSome_iff_exists] at h
  obtain ⟨⟨⟨⟨⟨⟨⟨⟨f, hf⟩, m, hm⟩, fl, hfl⟩, b, hb⟩, ps, hp⟩, nt, hnt⟩, mn, hmn⟩, sn, hsn⟩ := h
  simp only [baseSshCommand, hf, hm, hfl, hb, hp, hnt, hmn, hsn]
  exact ⟨_, rfl⟩

theorem baseSshCommand_error_of_missing (n : NodeConfig) (c : Config)
    (h : requiredKeysPresent n c = false) :
    ∃ key, baseSshCommand n c = .error (.keyError key) := by
  rcases hf : n.fqdn with _ | f
  · exact ⟨"fqdn", by simp [baseSshCommand, hf]⟩
  rcases hm : c.mailto with _ | m
  · exact ⟨"mailto", by simp [baseSshCommand, hf, hm]⟩
  rcases hfl : c.fleecing with _ | fl
  · exact ⟨"fleecing", by simp [baseSshCommand, hf, hm, hfl]⟩
  rcases hb : c.bwlimit with _ | b
  · exact ⟨"bwlimit", by simp [baseSshCommand, hf, hm, hfl, hb]⟩
  rcases hp : c.pbs_storage with _ | ps
  · exact ⟨"pbs_storage", by simp [baseSshCommand, hf, hm, hfl, hb, hp]⟩
  rcases hnt : c.notes_template with _ | nt
  · exact ⟨"notes_template", by simp [baseSshCommand, hf, hm, hfl, hb, hp, hnt]⟩
  rcases hmn : c.mailnotification with _ | mn
  · exact ⟨"mailnotification", by simp [baseSshCommand, hf, hm, hfl, hb, hp, hnt, hmn]⟩
  rcases hsn : n.shortname with _ | sn
  · exact ⟨"shortname", by simp [baseSshCommand, hf, hm, hfl, hb, hp, hnt, hmn, hsn]⟩
  exact absurd h (by simp [requiredKeysPresent, hf, hm, hfl, hb, hp, hnt, hmn, hsn])

theorem run_vzdump_ok (n : NodeConfig) (c : Config) (p : ProcSpec)
    (h : requiredKeysPresent n c = true) :
    run_vzdump n c p = .ok (classifyRun p) := by
  obtain ⟨cmd, hcmd⟩ := baseSshCommand_ok_of_keys n c h
  simp [run_vzdump, buildSshCommand, hcmd]

theorem run_vzdump_error (n : NodeConfig) (c : Config)
    (h : requiredKeysPresent n c = false) :
    ∃ key, ∀ p, run_vzdump n c p = .error (.keyError key) := by
  obtain ⟨key, hkey⟩ := baseSshCommand_error_of_missing n c h
  exact ⟨key, fun p => by simp [run_vzdump, buildSshCommand, hkey]⟩

/-- Index-tagged copy of a list, starting at a given index. -/
def withIdx {α : Type} : Nat → List α → List (Nat × α)
  | _, [] => []
  | i, a :: as => (i, a) :: withIdx (i + 1) as

/-- The warnings one cycle is expected to log: one per invocation whose
classified outcome is not a success, naming the node. -/
def expectedWarnings (env : Nat → ProcSpec) (i : Nat) (ns : List NodeConfig) : List String :=
  ((withIdx i ns).filter (fun x => ! (classifyRun (env x.1)).isSuccess)).map
    (fun x => x.2.shortname.getD "N/A")

theorem runNodes_ok (c : Config) (env : Nat → ProcSpec) (ns : List NodeConfig) :
    ∀ i t, (∀ n ∈ ns, requiredKeysPresent n c = true) →
      (runNodes c env ns i t).invoked = ns
      ∧ (runNodes c env ns i t).err = none
      ∧ t ≤ (runNodes c env ns i t).endT
      ∧ (runNodes c env ns i t).warnings = expectedWarnings env i ns := by
  induction ns with
  | nil => intro i t _; simp [runNodes, expectedWarnings, withIdx]
  | cons n rest ih =>
    intro i t h
    have hn := run_vzdump_ok n c (env i) (h n (List.mem_cons_self n rest))
    obtain ⟨h1, h2, h3, h4⟩ :=
      ih (i + 1) (t + procElapsed (env i)) (fun m hm => h m (List.mem_cons_of_mem n hm))
    refine ⟨?_, ?_, ?_, ?_⟩
    · simp [runNodes, hn, h1]
    · simp [runNodes, hn, h2]
    · simp only [runNodes, hn]
      exact le_trans (Nat.le_add_right t _) h3
    · cases hS : (classifyRun (env i)).isSuccess <;>
        simp [runNodes, hn, hS, expectedWarnings, withIdx, List.filter_cons, h4]

theorem runNodes_abort (c : Config) (env : Nat → ProcSpec) (bad : NodeConfig)
    (post : List NodeConfig) (key : String)
    (hkey : ∀ p, run_vzdump bad c p = .error (.keyError key)) :
    ∀ (pre : List NodeConfig), (∀ n ∈ pre, requiredKeysPresent n c = true) →
    ∀ i t, (runNodes c env (pre ++ bad :: post) i t).invoked = pre ++ [bad]
      ∧ (runNodes c env (pre ++ bad :: post) i t).err = some (.keyError key) := by
  intro pre
  induction pre with
  | nil =>
    intro _ i t
    simp [runNodes, hkey (env i)]
  | cons n pre ih =>
    intro h i t
    have hn := run_vzdump_ok n c (env i) (h n (List.mem_cons_self n pre))
    obtain ⟨h1, h2⟩ :=
      ih (fun m hm => h m (List.mem_cons_of_mem n hm)) (i + 1) (t + procElapsed (env i))
    constructor
    · simp [runNodes, hn, h1]
    · simp [runNodes, hn, h2]

theorem parseParts_malformed : ∀ (l : List String), l.length ≠ 5 →
    parseParts l = .error .malformedSchedule
  | [], _ => rfl
  | [_], _ => rfl
  | [_, _], _ => rfl
  | [_, _, _], _ => rfl
  | [_, _, _, _], _ => rfl
  | [_, _, _, _, _], h => absurd rfl h
  | _ :: _ :: _ :: _ :: _ :: _ :: _, _ => rfl

theorem pyToNat_star : pyToNat "*" = none := by decide

theorem runLoop_stopped_iff (evs : List IterEvent) :
    (runLoop evs).stopped = true ↔ IterEvent.interrupt ∈ evs := by
  induction evs with
  | nil => simp [runLoop]
  | cons e rest ih => cases e <;> simp [runLoop, loopStep, ih]

theorem runLoop_shutdown (evs : List IterEvent) :
    (runLoop evs).shutdownLogged = (runLoop evs).stopped := by
  induction evs with
  | nil => rfl
  | cons e rest ih => cases e <;> simp [runLoop, loopStep, ih]

theorem runLoop_fault_cons (m : String) (evs : List IterEvent) :
    runLoop (IterEvent.fault m :: evs) =
      ⟨(runLoop evs).iterations + 1, (runLoop evs).faultsLogged + 1,
       (runLoop evs).stopped, (runLoop evs).shutdownLogged⟩ := by
  simp [runLoop, loopStep]

/-! Claim theorems. -/

/-- C1, counterexample: run_vzdump does raise past its own boundary on a
node configuration lacking the fqdn key — the KeyError from building the
command escapes instead of being classified into an outcome. -/
theorem c1_counterexample :
    run_vzdump nodeNoFqdn cfgFull (ProcSpec.runs 1 0 "" "") =
      .error (.keyError "fqdn") := by decide

/-- C1, amended: for every node configuration and global configuration
that contain all the keys used to build the command, run_vzdump never
raises past its own boundary: whatever the process behavior, it returns
an outcome value to its caller. -/
theorem c1_amended (n : NodeConfig) (c : Config) (p : ProcSpec)
    (h : requiredKeysPresent n c = true) :
    ∃ outcome, run_vzdump n c p = .ok outcome :=
  ⟨classifyRun p, run_vzdump_ok n c p h⟩

/-- C1, witness for the amended theorem at a concrete input. -/
theorem c1_witness :
    ∃ outcome, run_vzdump nodeSample cfgFull (ProcSpec.runs 1 0 "done" "") = .ok outcome :=
  c1_amended nodeSample cfgFull (ProcSpec.runs 1 0 "done" "") (by decide)

/-- C2: the effective exclusion list follows node-then-global precedence
(a present node key wins even when its value is the empty list, else the
global list if present, else empty), and the comma-joined exclude
argument is appended to the command exactly when the effective list is
non-empty. -/
theorem c2_exclusion_precedence (n : NodeConfig) (c : Config) :
    (∀ l, n.exclude_vms = some l → effectiveExclude n c = l)
  ∧ (n.exclude_vms = none → ∀ g, c.exclude_vms = some g → effectiveExclude n c = g)
  ∧ (n.exclude_vms = none → c.exclude_vms = none → effectiveExclude n c = [])
  ∧ (∀ cmd, buildSshCommand n c = .ok cmd →
      ∃ base, baseSshCommand n c = .ok base ∧
        cmd = base ++ (if effectiveExclude n c = [] then []
          else ["--exclude", joinComma ((effectiveExclude n c).map Nat.repr)])) := by
  refine ⟨?_, ?_, ?_, ?_⟩
  · intro l hl; simp [effectiveExclude, hl]
  · intro hn g hg; simp [effectiveExclude, hn, hg]
  · intro hn hg; simp [effectiveExclude, hn, hg]
  · intro cmd hcmd
    unfold buildSshCommand at hcmd
    cases hb : baseSshCommand n c with
    | error e => rw [hb] at hcmd; cases hcmd
    | ok base =>
      rw [hb] at hcmd
      simp only [Except.ok.injEq] at hcmd
      exact ⟨base, rfl, by rw [← hcmd]; simp [excludeArgs]⟩

/-- C2, witness: with neither exclusion key present the effective list is
empty. -/
theorem c2_witness : effectiveExclude nodeB cfgNoSchedule = [] :=
  (c2_exclusion_precedence nodeB cfgNoSchedule).2.2.1 rfl rfl

/-- C3: one cycle invokes the backup operation on all configured nodes
exactly once, in configured order, whatever outcome each invocation
returns; a failed invocation only adds a warning naming the node; the
cycle completes, and its recorded end time is at least its start time. -/
theorem c3_cycle_isolation (c : Config) (ns : List NodeConfig) (env : Nat → ProcSpec)
    (t0 : Nat) (hns : c.nodes = some ns)
    (hkeys : ∀ n ∈ ns, requiredKeysPresent n c = true) :
    (backup_job c env t0).invocations = ns
  ∧ (backup_job c env t0).err = none
  ∧ (backup_job c env t0).completedLogged = true
  ∧ (backup_job c env t0).startTime ≤ (backup_job c env t0).endTime
  ∧ (backup_job c env t0).warnings = expectedWarnings env 0 ns := by
  obtain ⟨h1, h2, h3, h4⟩ := runNodes_ok c env ns 0 t0 hkeys
  refine ⟨?_, ?_, ?_, ?_, ?_⟩ <;> simp [backup_job, hns, h1, h2, h3, h4]

/-- C3, witness: a three-node cycle whose second node exits non-zero
still invokes all three nodes in order. -/
theorem c3_witness :
    (backup_job cfgFull env3 0).invocations = [nodeSample, nodeB, nodeC] :=
  (c3_cycle_isolation cfgFull [nodeSample, nodeB, nodeC] env3 0 rfl (by decide)).1

/-- C4: for five-field schedules the parser picks the recurrence rule by
precedence on the minute and hour fields alone: both wildcard gives
EveryMinute, hour wildcard with an in-range literal minute gives
HourlyAtMinute, and a literal hour with in-range fields gives DailyAt;
the remaining three fields never influence the result. -/
theorem c4_branch_selection (s minute hour dom mon dow : String)
    (hs : pySplit s = [minute, hour, dom, mon, dow]) :
    (minute = "*" → hour = "*" → parseSchedule s = .ok .everyMinute)
  ∧ (hour = "*" → ∀ m, pyToNat minute = some m → m ≤ 59 →
      parseSchedule s = .ok (.hourlyAtMinute m))
  ∧ (hour ≠ "*" → ∀ hv mv, pyToNat hour = some hv → hv ≤ 23 →
      pyToNat minute = some mv → mv ≤ 59 → parseSchedule s = .ok (.dailyAt hv mv))
  ∧ (∀ s2 dom2 mon2 dow2, pySplit s2 = [minute, hour, dom2, mon2, dow2] →
      parseSchedule s2 = parseSchedule s) := by
  unfold parseSchedule
  rw [hs]
  refine ⟨?_, ?_, ?_, ?_⟩
  · intro h1 h2; subst h1; subst h2; simp [parseParts]
  · intro h2 m hm hr
    subst h2
    have hne : ¬ minute = "*" := by
      intro he; rw [he, pyToNat_star] at hm; cases hm
    simp [parseParts, hne, atHourly, hm, hr]
  · intro hne hv mv hh hhr hm hmr
    simp [parseParts, hne, atDaily, hh, hm, hhr, hmr]
  · intro s2 dom2 mon2 dow2 hs2
    rw [hs2]
    rfl

/-- C4, witness: a concrete literal schedule lands in the DailyAt branch. -/
theorem c4_witness : parseSchedule "30 2 x y z" = .ok (.dailyAt 2 30) :=
  (c4_branch_selection "30 2 x y z" "30" "2" "x" "y" "z" (by decide)).2.2.1
    (by decide) 2 30 (by decide) (by decide) (by decide) (by decide)

/-- C5, counterexample: a configuration document lacking the required
mailto key does not fail at startup — the process registers the rule and
enters the polling loop. -/
theorem c5_counterexample :
    mainStartup (.loaded cfgMissingMailto) = .enteredLoop (.dailyAt 2 30) := by decide

/-- C5, amended: startup fails fatally exactly for a missing or
unparsable configuration file, an absent schedule key, or a schedule
string that is malformed or carries an invalid time value; a
configuration missing any of the other keys (mailto, fleecing, bwlimit,
pbs_storage, notes_template, mailnotification, nodes) still enters the
polling loop, the error surfacing only later inside a backup cycle. -/
theorem c5_amended :
    (mainStartup .fileNotFound = .fatal .configFileNotFound)
  ∧ (∀ m, mainStartup (.yamlError m) = .fatal .configYamlError)
  ∧ (∀ m, mainStartup (.otherError m) = .fatal .configOtherError)
  ∧ (∀ c, c.schedule = none → mainStartup (.loaded c) = .fatal .scheduleKeyMissing)
  ∧ (∀ c s e, c.schedule = some s → parseSchedule s = .error e →
      ∃ r, mainStartup (.loaded c) = .fatal r)
  ∧ (∀ c s rule, c.schedule = some s → parseSchedule s = .ok rule →
      mainStartup (.loaded c) = .enteredLoop rule) := by
  refine ⟨rfl, fun m => rfl, fun m => rfl, ?_, ?_, ?_⟩
  · intro c hc; simp [mainStartup, load_config, hc]
  · intro c s e hc hp
    cases e with
    | malformedSchedule =>
      exact ⟨.scheduleMalformed, by simp [mainStartup, load_config, hc, hp]⟩
    | invalidTimeValue f =>
      exact ⟨.scheduleInvalidTime f, by simp [mainStartup, load_config, hc, hp]⟩
  · intro c s rule hc hp; simp [mainStartup, load_config, hc, hp]

/-- C5, witness: a configuration lacking the schedule key is fatal at
startup. -/
theorem c5_witness : mainStartup (.loaded cfgNoSchedule) = .fatal .scheduleKeyMissing :=
  c5_amended.2.2.2.1 cfgNoSchedule rfl

/-- C6: the invocation runs under a fixed 1200-second timeout and the
outcome is classified exactly as the claim states: success precisely for
an in-time exit code zero; non-zero exit carries code and output; a
missing ssh tool, an overlong run, and any other fault map to the
transport-unavailable, timeout, and unexpected failures. -/
theorem c6_timeout_classification (n : NodeConfig) (c : Config) (p : ProcSpec)
    (hkeys : requiredKeysPresent n c = true) :
    vzdumpTimeout = 1200
  ∧ ((∃ out, run_vzdump n c p = .ok (.success out)) ↔
      ∃ d out err, p = .runs d 0 out err ∧ d ≤ vzdumpTimeout)
  ∧ (∀ d rc out err, p = .runs d rc out err → d ≤ vzdumpTimeout → rc ≠ 0 →
      run_vzdump n c p = .ok (.failureExit rc out err))
  ∧ (p = .toolMissing → run_vzdump n c p = .ok .transportUnavailable)
  ∧ (∀ d rc out err, p = .runs d rc out err → vzdumpTimeout < d →
      run_vzdump n c p = .ok .timeout)
  ∧ (p = .hangs → run_vzdump n c p = .ok .timeout)
  ∧ (∀ m, p = .faults m → run_vzdump n c p = .ok (.unexpected m)) := by
  have hrun : ∀ q, run_vzdump n c q = .ok (classifyRun q) :=
    fun q => run_vzdump_ok n c q hkeys
  refine ⟨rfl, ?_, ?_, ?_, ?_, ?_, ?_⟩
  · constructor
    · rintro ⟨out, hout⟩
      rw [hrun p] at hout
      simp only [Except.ok.injEq] at hout
      cases p with
      | runs d rc o e =>
        simp only [classifyRun] at hout
        by_cases hd : d ≤ vzdumpTimeout
        · by_cases hrc : rc = 0
          · subst hrc; exact ⟨d, o, e, rfl, hd⟩
          · simp [hd, hrc] at hout
        · simp [hd] at hout
      | hangs => simp [classifyRun] at hout
      | toolMissing => simp [classifyRun] at hout
      | faults m => simp [classifyRun] at hout
    · rintro ⟨d, out, err, rfl, hd⟩
      rw [hrun]
      simp [classifyRun, hd]
  · rintro d rc out err rfl hd hrc
    rw [hrun]
    simp [classifyRun, hd, hrc]
  · rintro rfl
    rw [hrun]
    simp [classifyRun]
  · rintro d rc out err rfl hd
    rw [hrun]
    simp [classifyRun, Nat.not_le.mpr hd]
  · rintro rfl
    rw [hrun]
    simp [classifyRun]
  · rintro m rfl
    rw [hrun]
    simp [classifyRun]

/-- C6, witness: a one-second run with exit code zero is classified as a
success. -/
theorem c6_witness :
    ∃ out, run_vzdump nodeSample cfgFull (ProcSpec.runs 1 0 "done" "") =
      .ok (.success out) :=
  (c6_timeout_classification nodeSample cfgFull (ProcSpec.runs 1 0 "done" "")
    (by decide)).2.1.mpr ⟨1, "done", "", rfl, by decide⟩

/-- C7: every schedule string that does not split into exactly five
whitespace-separated tokens fails with the malformed-schedule error, and
startup on such a configuration exits fatally without registering a
recurrence rule. -/
theorem c7_malformed_schedule (s : String) (h : (pySplit s).length ≠ 5) :
    parseSchedule s = .error .malformedSchedule
  ∧ (∀ c, c.schedule = some s → mainStartup (.loaded c) = .fatal .scheduleMalformed) := by
  have hp : parseSchedule s = .error .malformedSchedule :=
    parseParts_malformed (pySplit s) h
  exact ⟨hp, fun c hc => by simp [mainStartup, load_config, hc, hp]⟩

/-- C7, witness at a three-token schedule string. -/
theorem c7_witness : parseSchedule "1 2 3" = .error .malformedSchedule :=
  (c7_malformed_schedule "1 2 3" (by decide)).1

/-- C8: in the steady-state loop a fault iteration is caught, logged and
continued past, an interrupt stops the loop with shutdown logged, the
loop stops exactly when an interrupt occurs, and shutdown is logged
exactly when the loop stops. -/
theorem c8_loop_behavior :
    (∀ m, loopStep (.fault m) = .continueLoop true)
  ∧ (loopStep .interrupt = .stopLoop true)
  ∧ (∀ evs, ((runLoop evs).stopped = true ↔ IterEvent.interrupt ∈ evs))
  ∧ (∀ evs, (runLoop evs).shutdownLogged = (runLoop evs).stopped)
  ∧ (∀ m evs, runLoop (IterEvent.fault m :: evs) =
      ⟨(runLoop evs).iterations + 1, (runLoop evs).faultsLogged + 1,
       (runLoop evs).stopped, (runLoop evs).shutdownLogged⟩) :=
  ⟨fun _ => rfl, rfl, runLoop_stopped_iff, runLoop_shutdown, runLoop_fault_cons⟩

/-- C8, witness: a loop that meets a fault and then an interrupt stops. -/
theorem c8_witness :
    (runLoop [IterEvent.fault "boom", IterEvent.interrupt]).stopped = true :=
  (c8_loop_behavior.2.2.1 [IterEvent.fault "boom", IterEvent.interrupt]).mpr (by decide)

/-- C9: a five-field schedule with a concrete hour and a wildcard minute
falls into the daily branch, where the wildcard minute is treated as a
literal time value and rejected: parsing fails with an invalid-time
error, startup is fatal, and no recurrence rule is registered. -/
theorem c9_wildcard_minute_rejected (s hour dom mon dow : String)
    (hs : pySplit s = ["*", hour, dom, mon, dow]) (hne : hour ≠ "*") :
    (∃ f, parseSchedule s = .error (.invalidTimeValue f))
  ∧ (∀ c, c.schedule = some s →
      (∃ f, mainStartup (.loaded c) = .fatal (.scheduleInvalidTime f))
      ∧ ∀ rule, mainStartup (.loaded c) ≠ .enteredLoop rule) := by
  have hp : ∃ f, parseSchedule s = .error (.invalidTimeValue f) := by
    unfold parseSchedule
    rw [hs]
    cases hh : pyToNat hour with
    | none => exact ⟨hour, by simp [parseParts, hne, atDaily, hh, pyToNat_star]⟩
    | some hv => exact ⟨"*", by simp [parseParts, hne, atDaily, hh, pyToNat_star]⟩
  obtain ⟨f, hf⟩ := hp
  refine ⟨⟨f, hf⟩, ?_⟩
  intro c hc
  have hm : mainStartup (.loaded c) = .fatal (.scheduleInvalidTime f) := by
    simp [mainStartup, load_config, hc, hf]
  exact ⟨⟨f, hm⟩, fun rule hrule => by rw [hm] at hrule; cases hrule⟩

/-- C9, witness: minute wildcard with hour 2 fails with an invalid time
value. -/
theorem c9_witness :
    ∃ f, parseSchedule "* 2 x y z" = .error (.invalidTimeValue f) :=
  (c9_wildcard_minute_rejected "* 2 x y z" "2" "x" "y" "z" (by decide) (by decide)).1

/-- C10: when the first node whose invocation raises KeyError is reached
(because a global key or one of its own keys is absent), the error is
raised before any outcome classification, the cycle aborts there —
invoking only the nodes up to and including it and never logging cycle
completion — and the main loop catches the escaping exception, logs it,
and keeps polling instead of exiting. -/
theorem c10_keyerror_aborts_cycle (c : Config) (pre : List NodeConfig) (bad : NodeConfig)
    (post : List NodeConfig) (env : Nat → ProcSpec) (t0 : Nat)
    (hns : c.nodes = some (pre ++ bad :: post))
    (hpre : ∀ n ∈ pre, requiredKeysPresent n c = true)
    (hbad : requiredKeysPresent bad c = false) :
    ∃ key,
      (∀ p, run_vzdump bad c p = .error (.keyError key))
    ∧ (backup_job c env t0).err = some (.keyError key)
    ∧ (backup_job c env t0).invocations = pre ++ [bad]
    ∧ (backup_job c env t0).completedLogged = false
    ∧ loopStep (iterOfCycle (backup_job c env t0)) = .continueLoop true
    ∧ ∀ evs, (runLoop (iterOfCycle (backup_job c env t0) :: evs)).stopped =
        (runLoop evs).stopped := by
  obtain ⟨key, hkey⟩ := run_vzdump_error bad c hbad
  obtain ⟨hinv, herr⟩ := runNodes_abort c env bad post key hkey pre hpre 0 t0
  have htr : (backup_job c env t0).err = some (.keyError key) := by
    simp [backup_job, hns, herr]
  refine ⟨key, hkey, htr, ?_, ?_, ?_, ?_⟩
  · simp [backup_job, hns, hinv]
  · simp [backup_job, hns, herr]
  · simp [iterOfCycle, htr, loopStep]
  · intro evs
    simp [iterOfCycle, htr, runLoop, loopStep]

/-- C10, witness: with the second node lacking its shortname key, the
cycle aborts after invoking the first two nodes and the loop survives. -/
theorem c10_witness :
    ∃ key,
      (∀ p, run_vzdump nodeNoShort cfgBadNode p = .error (.keyError key))
    ∧ (backup_job cfgBadNode env3 0).err = some (.keyError key)
    ∧ (backup_job cfgBadNode env3 0).invocations = [nodeB] ++ [nodeNoShort]
    ∧ (backup_job cfgBadNode env3 0).completedLogged = false
    ∧ loopStep (iterOfCycle (backup_job cfgBadNode env3 0)) = .continueLoop true
    ∧ ∀ evs, (runLoop (iterOfCycle (backup_job cfgBadNode env3 0) :: evs)).stopped =
        (runLoop evs).stopped :=
  c10_keyerror_aborts_cycle cfgBadNode [nodeB] nodeNoShort [nodeC] env3 0 rfl
    (by decide) (by decide)

end Orchestrator
